import Mathlib

/-!
Verification of `server.py` from myvfc/wikipedia-mcp-server.

Lines 1-10 of the file are a four-line entry point:

  async def main():
      async with create_server() as server:
          await server.run()

  if __name__ == "__main__":
      asyncio.run(main())

Lines 11-28 of the same file, however, are pasted markdown tutorial text
(line 11 is a ``` code fence, followed by instructions such as "Scroll
down, click Commit changes").  CPython compiles a module in full before
executing any of it, so both `python server.py` and `import` of the
module raise SyntaxError at line 11 before a single statement of lines
1-10 runs.  The development therefore works at two levels: `server_main`
embeds the coroutine `main` of lines 5-7 (the entry-point contract
against a test double), while `server_py`/`process_run` embed the actual
whole-file semantics, in which compilation fails and no collaborator
operation is ever invoked.

All logic of the external `wikipedia_mcp` package is out of scope; it is
modelled as a test double (`WikipediaMcp`) whose four operations — the
factory `create_server`, the async context manager's enter and exit steps,
and the server's `run` method — may each return normally or raise.
Raising is modelled with `Except Err`; external cancellation delivered at
the sole await point is `Err.cancelled` (asyncio delivers CancelledError
by raising it at the suspension point, so it flows through `async with`
exactly like any other exception).

`main` is embedded by desugaring `async with EXPR as VAR: BODY` per the
Python language reference (PEP 492):

  mgr = EXPR                         -- may raise
  VAR = await mgr.__aenter__()       -- may raise; on raise, __aexit__ is NOT called
  try: BODY
  except e:
      if not await mgr.__aexit__(e): raise   -- truthy return suppresses e
  else:
      await mgr.__aexit__(None)              -- return value ignored

The embedding returns the list of collaborator invocations (the trace,
in call order) together with `main`'s outcome.
-/

/-- An exception value: an ordinary exception identified by a number,
asyncio's CancelledError raised by external cancellation, or a
SyntaxError raised by CPython's compilation of a module, carrying the
offending line number. -/
inductive Err where
  | exn : Nat → Err
  | cancelled : Err
  | syntaxErr : Nat → Err
deriving DecidableEq, Repr

/-- One invocation of an operation of the external collaborator, as
observed on a test double.  Object identities (plain numbers) record which
object each method was invoked on: `enterScope mgr` and `exitScope mgr`
are `__aenter__`/`__aexit__` on the context manager returned by the
factory, `runCall obj` is `run` on the object bound by `as server`. -/
inductive Event where
  | factoryCall : Event
  | enterScope : Nat → Event
  | runCall : Nat → Event
  | exitScope : Nat → Event
deriving DecidableEq, Repr

/-- The test double for the external `wikipedia_mcp` package: the
behaviour of each collaborator operation.  `create_server` returns a
context-manager object (an identity) or raises; `aenter`, applied to that
object, returns the object bound by `as server` or raises; `run`, applied
to the bound object, returns a (discarded) value or raises; `aexit`,
applied to the context-manager object, returns a suppress flag (Python
checks truthiness of `__aexit__`'s return when the body raised) or
raises. -/
structure WikipediaMcp where
  create_server : Except Err Nat
  aenter : Nat → Except Err Nat
  run : Nat → Except Err Nat
  aexit : Nat → Except Err Bool

/-- The trace of the full successful-entry path: factory, enter, run on
the bound object, exit. -/
def fullTrace (mgr server : Nat) : List Event :=
  [Event.factoryCall, Event.enterScope mgr, Event.runCall server, Event.exitScope mgr]

/-- Embedding of `main` from server.py: `async with create_server() as
server: await server.run()`, desugared per the Python reference.  Returns
the invocation trace and the outcome (`main` returns None, hence `Unit`). -/
def server_main (p : WikipediaMcp) : List Event × Except Err Unit :=
  match p.create_server with
  | Except.error e => ([Event.factoryCall], Except.error e)
  | Except.ok mgr =>
    match p.aenter mgr with
    | Except.error e => ([Event.factoryCall, Event.enterScope mgr], Except.error e)
    | Except.ok server =>
      match p.run server with
      | Except.ok _ =>
        match p.aexit mgr with
        | Except.error e2 => (fullTrace mgr server, Except.error e2)
        | Except.ok _ => (fullTrace mgr server, Except.ok ())
      | Except.error e =>
        match p.aexit mgr with
        | Except.error e2 => (fullTrace mgr server, Except.error e2)
        | Except.ok true => (fullTrace mgr server, Except.ok ())
        | Except.ok false => (fullTrace mgr server, Except.error e)

/-- Embedding of executing or importing the file server.py as it is
committed.  Lines 11-28 of the file are pasted markdown (line 11 is a
``` code fence), so CPython's compilation of the module raises
SyntaxError at line 11 before any of lines 1-10 executes: no name is
bound, the value of `__name__` (the `name` argument) is never consulted,
the `if __name__ == "__main__"` guard of lines 9-10 never runs, and no
operation of the collaborator `p` is ever invoked. -/
def server_py (p : WikipediaMcp) (name : String) : List Event × Except Err Unit :=
  ([], Except.error (Err.syntaxErr 11))

/-- Process exit status: CPython exits 0 when the program returns
normally and with a non-zero status (1; platform-default diagnostic) on
any unhandled exception, a module-compilation SyntaxError included. -/
def exitStatus (r : Except Err Unit) : Nat :=
  match r with
  | Except.ok _ => 0
  | Except.error _ => 1

/-- Embedding of one process invocation `python server.py`: the
interpreter compiles server.py as `__main__` and dies with the
SyntaxError of line 11 regardless of the double, the command line or the
environment — server.py never reads `sys.argv` or `os.environ` (neither
name occurs in the source), and execution ends before any statement in
any case. -/
def process_run (p : WikipediaMcp) (argv : List String)
    (env : List (String × String)) : List Event × Except Err Unit :=
  server_py p "__main__"

/-- The handle counts as acquired exactly when `__aenter__` was reached
and returned normally; Python calls `__aexit__` iff this holds. -/
def acquired (p : WikipediaMcp) : Bool :=
  match p.create_server with
  | Except.error _ => false
  | Except.ok mgr =>
    match p.aenter mgr with
    | Except.error _ => false
    | Except.ok _ => true

/-- Recogniser for release (exit-scope) events in a trace. -/
def isExitEv : Event → Bool
  | Event.exitScope _ => true
  | _ => false

/-- Recogniser for factory-call events in a trace. -/
def isFactoryEv : Event → Bool
  | Event.factoryCall => true
  | _ => false

/-- Replace the value `run` returns on success by `v`, leaving every
other behaviour of the double unchanged.  Used to state that `main`
discards `run`'s return value. -/
def withRunValue (p : WikipediaMcp) (v : Nat) : WikipediaMcp :=
  WikipediaMcp.mk p.create_server p.aenter
    (fun o => Except.map (fun _ => v) (p.run o)) p.aexit

/-- Double for the all-successful path: the factory returns object 0,
entering yields a distinct object 1, `run` returns 7, exit succeeds. -/
def dOk : WikipediaMcp :=
  WikipediaMcp.mk (Except.ok 0) (fun _ => Except.ok 1) (fun _ => Except.ok 7)
    (fun _ => Except.ok false)

/-- Double whose `run` raises exception 5. -/
def dRunFail : WikipediaMcp :=
  WikipediaMcp.mk (Except.ok 0) (fun _ => Except.ok 1)
    (fun _ => Except.error (Err.exn 5)) (fun _ => Except.ok false)

/-- Double whose enter-scope step raises exception 2. -/
def dEnterFail : WikipediaMcp :=
  WikipediaMcp.mk (Except.ok 0) (fun _ => Except.error (Err.exn 2))
    (fun _ => Except.ok 7) (fun _ => Except.ok false)

/-- Double whose `run` is cancelled externally. -/
def dCancelled : WikipediaMcp :=
  WikipediaMcp.mk (Except.ok 0) (fun _ => Except.ok 1)
    (fun _ => Except.error Err.cancelled) (fun _ => Except.ok false)

/-- A module name other than `__main__`, for library-import scenarios. -/
def libraryName : String := "wikipedia_mcp_client"

/-- C1: if the run operation returns normally, the entry point invokes
enter-scope, then run, then exit-scope, in that order, each exactly once
(the trace is exactly the four-event sequence). -/
theorem C1_enter_run_exit_in_order (p : WikipediaMcp) (mgr server v : Nat)
    (hf : p.create_server = Except.ok mgr)
    (he : p.aenter mgr = Except.ok server)
    (hr : p.run server = Except.ok v) :
    (server_main p).1 = fullTrace mgr server := by
  cases hx : p.aexit mgr with
  | error e2 => simp [server_main, hf, he, hr, hx]
  | ok b => simp [server_main, hf, he, hr, hx]

/-- Witness for C1 at the concrete double `dOk`. -/
theorem C1_witness :
    (server_main dOk).1 = fullTrace 0 1 :=
  C1_enter_run_exit_in_order dOk 0 1 7 rfl rfl rfl

/-- C2: if the run operation raises, the exit-scope step is still invoked
(the trace is the full four-event sequence, with exit-scope after run),
and when the scope-exit step does not suppress it the error propagates out
of the entry point. -/
theorem C2_cleanup_on_run_error (p : WikipediaMcp) (mgr server : Nat) (e : Err)
    (hf : p.create_server = Except.ok mgr)
    (he : p.aenter mgr = Except.ok server)
    (hr : p.run server = Except.error e) :
    (server_main p).1 = fullTrace mgr server ∧
    (p.aexit mgr = Except.ok false → (server_main p).2 = Except.error e) := by
  constructor
  · cases hx : p.aexit mgr with
    | error e2 => simp [server_main, hf, he, hr, hx]
    | ok b => cases b <;> simp [server_main, hf, he, hr, hx]
  · intro hx
    simp [server_main, hf, he, hr, hx]

/-- Witness for C2 at the concrete double `dRunFail`. -/
theorem C2_witness :
    (server_main dRunFail).1 = fullTrace 0 1 ∧
    (server_main dRunFail).2 = Except.error (Err.exn 5) :=
  And.intro (C2_cleanup_on_run_error dRunFail 0 1 (Err.exn 5) rfl rfl rfl).1
    ((C2_cleanup_on_run_error dRunFail 0 1 (Err.exn 5) rfl rfl rfl).2 rfl)

/-- C3: if entering the scope raises, neither run nor exit-scope is ever
invoked (the trace stops at the enter-scope invocation) and the error
propagates out of the entry point unmodified. -/
theorem C3_enter_error_propagates (p : WikipediaMcp) (mgr : Nat) (e : Err)
    (hf : p.create_server = Except.ok mgr)
    (he : p.aenter mgr = Except.error e) :
    server_main p = ([Event.factoryCall, Event.enterScope mgr], Except.error e) := by
  simp [server_main, hf, he]

/-- Witness for C3 at the concrete double `dEnterFail`. -/
theorem C3_witness :
    server_main dEnterFail =
      ([Event.factoryCall, Event.enterScope 0], Except.error (Err.exn 2)) :=
  C3_enter_error_propagates dEnterFail 0 (Err.exn 2) rfl rfl

/-- C4: if the run operation is cancelled externally (CancelledError at
the await point), the exit-scope step is still executed, as the final
collaborator invocation before the entry point terminates. -/
theorem C4_cleanup_on_cancellation (p : WikipediaMcp) (mgr server : Nat)
    (hf : p.create_server = Except.ok mgr)
    (he : p.aenter mgr = Except.ok server)
    (hr : p.run server = Except.error Err.cancelled) :
    Event.exitScope mgr ∈ (server_main p).1 ∧
    (server_main p).1.getLast? = some (Event.exitScope mgr) := by
  have htr : (server_main p).1 = fullTrace mgr server := by
    cases hx : p.aexit mgr with
    | error e2 => simp [server_main, hf, he, hr, hx]
    | ok b => cases b <;> simp [server_main, hf, he, hr, hx]
  rw [htr]
  simp [fullTrace]

/-- Witness for C4 at the concrete double `dCancelled`. -/
theorem C4_witness :
    Event.exitScope 0 ∈ (server_main dCancelled).1 ∧
    (server_main dCancelled).1.getLast? = some (Event.exitScope 0) :=
  C4_cleanup_on_cancellation dCancelled 0 1 rfl rfl rfl

/-- C5: the handle, once acquired, is released exactly once on every exit
path before the entry point exits: the trace holds exactly one release
when `__aenter__` succeeded and none otherwise, and any release is the
final event and is preceded by the matching scope entry (so Stopped is
reached only from Running, never skipped and never entered twice). -/
theorem C5_release_exactly_once (p : WikipediaMcp) :
    ((server_main p).1.countP isExitEv = if acquired p = true then 1 else 0) ∧
    (∀ mgr, Event.exitScope mgr ∈ (server_main p).1 →
      (server_main p).1.getLast? = some (Event.exitScope mgr) ∧
      Event.enterScope mgr ∈ (server_main p).1) := by
  cases hf : p.create_server with
  | error e => constructor <;> simp [server_main, acquired, hf, isExitEv]
  | ok mgr =>
    cases he : p.aenter mgr with
    | error e => constructor <;> simp [server_main, acquired, hf, he, isExitEv]
    | ok server =>
      have htr : (server_main p).1 = fullTrace mgr server := by
        cases hr : p.run server with
        | ok v =>
          cases hx : p.aexit mgr with
          | error e2 => simp [server_main, hf, he, hr, hx]
          | ok b => simp [server_main, hf, he, hr, hx]
        | error e =>
          cases hx : p.aexit mgr with
          | error e2 => simp [server_main, hf, he, hr, hx]
          | ok b => cases b <;> simp [server_main, hf, he, hr, hx]
      rw [htr]
      constructor
      · simp [acquired, hf, he, fullTrace, isExitEv]
      · intro mgr2 hm
        simp [fullTrace] at hm
        subst hm
        simp [fullTrace]

/-- Witness for C5 at the concrete double `dRunFail`. -/
theorem C5_witness :
    (server_main dRunFail).1.countP isExitEv = 1 ∧
    (server_main dRunFail).1.getLast? = some (Event.exitScope 0) ∧
    Event.enterScope 0 ∈ (server_main dRunFail).1 := by
  have h := C5_release_exactly_once dRunFail
  refine ⟨?_, h.2 0 (by decide)⟩
  rw [h.1]
  decide

/-- C6: evaluation of the code at the failing input.  A process
invocation with the well-behaved double `dOk` (whose run operation
returns normally) raises SyntaxError at line 11 before a single
collaborator call and exits with status 1 — although the claim's exit
contract requires status 0 on clean run-loop shutdown, and although the
failure propagating here arises from none of factory construction, scope
entry, run, or scope exit. -/
theorem C6_syntax_error_preempts_exit_contract :
    process_run dOk [] [] = ([], Except.error (Err.syntaxErr 11)) ∧
    exitStatus (process_run dOk [] []).2 = 1 :=
  And.intro rfl rfl

/-- In every run of the intended coroutine `main` (lines 5-7), the
factory is invoked exactly once; the committed file never reaches it. -/
theorem server_main_factory_count (p : WikipediaMcp) :
    (server_main p).1.countP isFactoryEv = 1 := by
  cases hf : p.create_server with
  | error e => simp [server_main, hf, isFactoryEv]
  | ok mgr =>
    cases he : p.aenter mgr with
    | error e => simp [server_main, hf, he, isFactoryEv]
    | ok server =>
      cases hr : p.run server with
      | ok v =>
        cases hx : p.aexit mgr with
        | error e2 => simp [server_main, hf, he, hr, hx, fullTrace, isFactoryEv]
        | ok b => simp [server_main, hf, he, hr, hx, fullTrace, isFactoryEv]
      | error e =>
        cases hx : p.aexit mgr with
        | error e2 => simp [server_main, hf, he, hr, hx, fullTrace, isFactoryEv]
        | ok b => cases b <;> simp [server_main, hf, he, hr, hx, fullTrace, isFactoryEv]

/-- C7: evaluation of the code at the failing input.  Running the file as
the entry script with double `dOk` invokes the factory zero times: the
SyntaxError of line 11 preempts execution, so the claim's normal path —
on which the factory would be called exactly once, as
`server_main_factory_count` shows of the intended coroutine — does not
exist in the committed file. -/
theorem C7_factory_never_called :
    (process_run dOk [] []).1.countP isFactoryEv = 0 ∧
    (process_run dOk [] []).2 = Except.error (Err.syntaxErr 11) :=
  And.intro rfl rfl

/-- C8: two process invocations differing only in command-line arguments
or environment variables behave identically.  The committed file reads
neither — indeed CPython raises SyntaxError at line 11 before any
statement could read anything — so the outcome is the same for every
command line and environment. -/
theorem C8_args_env_irrelevant (p : WikipediaMcp) (argv1 argv2 : List String)
    (env1 env2 : List (String × String)) :
    process_run p argv1 env1 = process_run p argv2 env2 := rfl

/-- C9: evaluation of the code at the failing input.  Importing the
module as a library (here with `__name__` set to `libraryName`) is not
inert: compilation of server.py raises SyntaxError at line 11, an
observable effect, and no name is bound — the claim's intended silent
outcome `([], Except.ok ())` does not occur. -/
theorem C9_import_raises_syntax_error :
    server_py dOk libraryName = ([], Except.error (Err.syntaxErr 11)) ∧
    server_py dOk libraryName ≠ ([], Except.ok ()) :=
  And.intro rfl (by simp [server_py])

/-- C10: the run operation is invoked only on the object yielded by the
enter-scope step (which the factory's raw return value need not equal),
and the value `run` returns is discarded: changing it changes nothing
observable about `main`. -/
theorem C10_run_on_entered_object (p : WikipediaMcp) (mgr server : Nat)
    (hf : p.create_server = Except.ok mgr)
    (he : p.aenter mgr = Except.ok server) :
    (∀ o, Event.runCall o ∈ (server_main p).1 → o = server) ∧
    (∀ v, server_main (withRunValue p v) = server_main p) := by
  constructor
  · intro o ho
    have htr : (server_main p).1 = fullTrace mgr server := by
      cases hr : p.run server with
      | ok v =>
        cases hx : p.aexit mgr with
        | error e2 => simp [server_main, hf, he, hr, hx]
        | ok b => simp [server_main, hf, he, hr, hx]
      | error e =>
        cases hx : p.aexit mgr with
        | error e2 => simp [server_main, hf, he, hr, hx]
        | ok b => cases b <;> simp [server_main, hf, he, hr, hx]
    rw [htr] at ho
    simpa [fullTrace] using ho
  · intro v
    cases hr : p.run server with
    | ok w =>
      cases hx : p.aexit mgr with
      | error e2 => simp [server_main, withRunValue, Except.map, hf, he, hr, hx]
      | ok b => simp [server_main, withRunValue, Except.map, hf, he, hr, hx]
    | error e =>
      cases hx : p.aexit mgr with
      | error e2 => simp [server_main, withRunValue, Except.map, hf, he, hr, hx]
      | ok b =>
        cases b <;> simp [server_main, withRunValue, Except.map, hf, he, hr, hx]

/-- Witness for C10 at the concrete double `dOk`, where the factory
returns object 0 but `as server` binds the distinct object 1. -/
theorem C10_witness :
    server_main (withRunValue dOk 42) = server_main dOk :=
  (C10_run_on_entered_object dOk 0 1 rfl rfl).2 42
